import Mathlib

/-!
Verification of the WebSocket stream-multiplexer core of the exaroton
client typings (`src/types/exaroton/index.d.ts`).

The repository ships type declarations only; the declarations fix the data
model (the `ServerStatus` enumeration, `StreamStatus`, the per-variant
`startStatuses` literal types, and all operation signatures), while the
operation bodies live outside the repository.  Where a definition below
embeds a literal of the declaration file it is taken from the source;
where it models an operation body absent from the source, its doc comment
says `Modelled from the spec:` and cites the spec passage it follows.
-/

namespace Exaroton

/-- The server-status enumeration, embedded from the `ServerStatus`
interface (index.d.ts lines 657–668) and the identical `Server.STATUS`
constant block. -/
inductive StatusCode
  | OFFLINE
  | ONLINE
  | STARTING
  | STOPPING
  | RESTARTING
  | SAVING
  | LOADING
  | CRASHED
  | PENDING
  | PREPARING
deriving DecidableEq

/-- The explicit numeric value of each status, embedded from the
`ServerStatus` interface: OFFLINE=0, ONLINE=1, STARTING=2, STOPPING=3,
RESTARTING=4, SAVING=5, LOADING=6, CRASHED=7, PENDING=8, PREPARING=10. -/
def StatusCode.val : StatusCode → Nat
  | .OFFLINE => 0
  | .ONLINE => 1
  | .STARTING => 2
  | .STOPPING => 3
  | .RESTARTING => 4
  | .SAVING => 5
  | .LOADING => 6
  | .CRASHED => 7
  | .PENDING => 8
  | .PREPARING => 10

/-- All members of the enumeration, in declaration order. -/
def allStatusCodes : List StatusCode :=
  [.OFFLINE, .ONLINE, .STARTING, .STOPPING, .RESTARTING,
   .SAVING, .LOADING, .CRASHED, .PENDING, .PREPARING]

/-- Modelled from the spec: the server-status oracle capability
`getServerStatus() -> StatusCode` (spec §6); the oracle's current answer is
passed in and handed back unchanged — the multiplexer only reads it. -/
def getServerStatus (oracle : StatusCode) : StatusCode := oracle

/-- The stream names, embedded from `subscriptionTypes`
(`'tick' | 'heap' | 'stats' | 'console'`, index.d.ts line 920). -/
inductive StreamName
  | console
  | heap
  | stats
  | tick
deriving DecidableEq

/-- The wire spelling of each stream name. -/
def StreamName.asString : StreamName → String
  | .console => "console"
  | .heap => "heap"
  | .stats => "stats"
  | .tick => "tick"

/-- Parse a caller-supplied stream name, embedded from the
`subscriptionTypes` union: any other string is unknown. -/
def streamNameOfString (s : String) : Option StreamName :=
  if s = "console" then some .console
  else if s = "heap" then some .heap
  else if s = "stats" then some .stats
  else if s = "tick" then some .tick
  else none

/-- The values of the `StreamStatus` type (`1 | 2 | 3 | 4`,
index.d.ts line 762). -/
def streamStatusValues : List Nat := [1, 2, 3, 4]

/-- Per-variant `startStatuses`.  `TickStream`, `StatsStream` and
`HeapStream` declare the literal type `[1]` (index.d.ts lines 924, 930,
935).  Modelled from the spec for the console variant: `ConsoleStream`
does not pin a narrower literal, so it carries the full `StreamStatus`
set `[1, 2, 3, 4]` admitted by the base declaration
`startStatuses: StreamStatus[]`. -/
def defaultStartStatuses : StreamName → List Nat
  | .tick => [1]
  | .stats => [1]
  | .heap => [1]
  | .console => [1, 2, 3, 4]

/-- One registered stream: the lifecycle fields of the `Stream` class
(index.d.ts lines 853–859): `name`, `started` (confirmed state),
`shouldStart` (desired state), `startStatuses`. -/
structure StreamState where
  name : StreamName
  started : Bool
  shouldStart : Bool
  startStatuses : List Nat
deriving DecidableEq

/-- A freshly created stream instance: not started, not yet desired,
with its variant's `startStatuses`. -/
def mkStream (n : StreamName) : StreamState :=
  ⟨n, false, false, defaultStartStatuses n⟩

/-- One frame on the wire, tagged with stream name and message type
(spec §6: `{stream, type, data}`; the payload is irrelevant to the
properties below). -/
structure Frame where
  stream : StreamName
  type : String
deriving DecidableEq

/-- The connection-owning client state: the `WebsocketClient` fields
(index.d.ts lines 767–799): `autoReconnect`, `reconnectTimeout`,
`connected`, `shouldConnect`, `serverConnected`, `ready`, the reconnect
timer handle (`reconnectInterval`, modelled as the pending delay), the
physical socket handle (modelled as an open/closed flag) and the
registered streams. -/
structure ClientState where
  autoReconnect : Bool
  reconnectTimeout : Nat
  connected : Bool
  shouldConnect : Bool
  serverConnected : Bool
  ready : Bool
  reconnectTimer : Option Nat
  socketOpen : Bool
  streams : List StreamState
deriving DecidableEq

/-- Modelled from the spec: `shouldBeStarted()` "returns true iff that
status is a member of `startStatuses` AND the caller still wants it
started (`shouldStart`)" (spec §4.2), evaluated against the status the
oracle reports at call time. -/
def StreamState.shouldBeStarted (s : StreamState) (oracle : StatusCode) : Bool :=
  s.startStatuses.contains (getServerStatus oracle).val && s.shouldStart

/-- Modelled from the spec: `tryToStart()` — "if `shouldBeStarted()`
resolves true and not already `started`, sends a start frame (type
\"start\") through the owning client and is NOT marked started until a
confirmation message arrives" (spec §4.2); the client's `send` transmits
only if the socket is ready (spec §4.1).  Returns the stream (unchanged:
no optimistic flip) and the frames actually put on the wire. -/
def StreamState.tryToStart (s : StreamState) (oracle : StatusCode) (ready : Bool) :
    StreamState × List Frame :=
  if s.started then (s, [])
  else if s.shouldBeStarted oracle then
    (s, if ready then [⟨s.name, "start"⟩] else [])
  else (s, [])

/-- Modelled from the spec: `Stream.onMessage` dispatches lifecycle
messages — `"started"` sets `started=true`, `"stopped"` sets
`started=false`, anything else is a data message and leaves the lifecycle
state alone (spec §4.2). -/
def StreamState.onMessage (s : StreamState) (m : String) : StreamState :=
  if m = "started" then { s with started := true }
  else if m = "stopped" then { s with started := false }
  else s

/-- Modelled from the spec: `onDisconnect()` forces `started=false`
without emitting a stop frame (spec §4.2). -/
def StreamState.onDisconnect (s : StreamState) : StreamState :=
  { s with started := false }

/-- Modelled from the spec: `connect()` — "if not already
connecting/connected, opens the socket (idempotent — calling while
already connected/connecting is a no-op).  Sets `shouldConnect=true`"
(spec §4.1).  The returned flag records whether a socket-open attempt was
issued by this call. -/
def connect (c : ClientState) : ClientState × Bool :=
  if c.socketOpen || c.connected then ({ c with shouldConnect := true }, false)
  else ({ c with shouldConnect := true, socketOpen := true }, true)

/-- Modelled from the spec: `disconnect()` — "stops every active stream,
closes the socket, sets `shouldConnect=false`, cancels any pending
reconnect timer" (spec §4.1).  Stop frames go out for the currently
started streams when the socket is still ready; every stream then reports
`started=false` while staying registered. -/
def disconnect (c : ClientState) : ClientState × List Frame :=
  let frames : List Frame :=
    if c.ready then
      (c.streams.filter (fun s => s.started)).map (fun s => ⟨s.name, "stop"⟩)
    else []
  ({ c with shouldConnect := false
          , connected := false
          , ready := false
          , serverConnected := false
          , reconnectTimer := none
          , socketOpen := false
          , streams := c.streams.map StreamState.onDisconnect }, frames)

/-- Modelled from the spec: `onClose()` — "marks `connected=false`,
`ready=false`, marks every stream as not-started (without discarding
registration); if `autoReconnect && shouldConnect`, schedules a reconnect
after `reconnectTimeout`" (spec §4.1).  The scheduled timer holds the
delay it will fire after. -/
def onClose (c : ClientState) : ClientState :=
  if c.autoReconnect && c.shouldConnect then
    { c with connected := false
           , ready := false
           , socketOpen := false
           , streams := c.streams.map StreamState.onDisconnect
           , reconnectTimer := some c.reconnectTimeout }
  else
    { c with connected := false
           , ready := false
           , socketOpen := false
           , streams := c.streams.map StreamState.onDisconnect }

/-- Modelled from the spec: the caller-settable `autoReconnect` flag
(spec §6); "setting `autoReconnect=false` before the timer fires cancels
the scheduled attempt" (spec §8), so clearing the flag also clears any
pending timer. -/
def setAutoReconnect (c : ClientState) (b : Bool) : ClientState :=
  { c with autoReconnect := b
         , reconnectTimer := if b then c.reconnectTimer else none }

/-- Modelled from the spec: the reconnect timer firing — a scheduled
attempt reconnects (one socket-open attempt via `connect`) provided the
client still wants the connection; a state with no pending timer does
nothing.  Returns whether a reconnect attempt occurred. -/
def fireReconnectTimer (c : ClientState) : ClientState × Bool :=
  match c.reconnectTimer with
  | none => (c, false)
  | some _ =>
    if c.shouldConnect then ((connect { c with reconnectTimer := none }).1, true)
    else ({ c with reconnectTimer := none }, false)

/-- Modelled from the spec: `subscribe` "ensure[s] a Stream instance
exists" (spec §4.1) — streams are created lazily and exactly one instance
exists per name (spec §3). -/
def ensureStream (c : ClientState) (n : StreamName) : ClientState :=
  if c.streams.any (fun s => s.name = n) then c
  else { c with streams := c.streams ++ [mkStream n] }

/-- Modelled from the spec: `subscribe` "mark[s] `shouldStart=true`" on
the requested stream (spec §4.1). -/
def markShouldStart (c : ClientState) (n : StreamName) : ClientState :=
  { c with streams :=
      c.streams.map (fun s => if s.name = n then { s with shouldStart := true } else s) }

/-- Modelled from the spec: `tryToStartStreams()` — "for every registered
stream with `shouldStart && !started`, ask it to attempt a start"
(spec §4.1); each attempt re-evaluates admission against the latest
oracle status (spec §4.2) and flips no local state. -/
def tryToStartStreams (c : ClientState) (oracle : StatusCode) : ClientState × List Frame :=
  ({ c with streams := c.streams.map (fun s => (s.tryToStart oracle c.ready).1) },
   (c.streams.map (fun s => (s.tryToStart oracle c.ready).2)).flatten)

/-- Modelled from the spec: `subscribe(name)` — ensure the stream exists,
mark `shouldStart=true`, and invoke `tryToStartStreams()` (spec §4.1). -/
def subscribe (c : ClientState) (n : StreamName) (oracle : StatusCode) :
    ClientState × List Frame :=
  tryToStartStreams (markShouldStart (ensureStream c n) n) oracle

/-- Modelled from the spec: the client's `onMessage` demultiplexer —
"if `streamName` is a registered stream, forwards `(type, payload)` to
that stream's message handler; unknown stream names are ignored"
(spec §4.1). -/
def dispatchMessage (c : ClientState) (n : StreamName) (m : String) : ClientState :=
  { c with streams := c.streams.map (fun s => if s.name = n then s.onMessage m else s) }

/-- `hasStream(stream: string): boolean` (index.d.ts line 839).  Modelled
from the spec: a name is a stream name iff it is one of the four
`subscriptionTypes`. -/
def hasStream (name : String) : Bool :=
  (streamNameOfString name).isSome

/-- `getStreams(stream: string): boolean | Stream` (index.d.ts lines
832–837).  Modelled from the spec: subscribing to an unknown stream name
is "reported synchronously as a rejected operation (falsy return), not an
exception" (spec §7); a known name yields the registered instance,
created lazily when absent (spec §3). -/
def getStreams (c : ClientState) (name : String) : StreamState ⊕ Bool :=
  match streamNameOfString name with
  | none => Sum.inr false
  | some n =>
    match c.streams.find? (fun s => s.name = n) with
    | some s => Sum.inl s
    | none => Sum.inl (mkStream n)

/-- Repeated invocation of `tryToStartStreams()` under a fixed oracle
status, collecting every frame put on the wire. -/
def iterateTryToStart (c : ClientState) (oracle : StatusCode) : Nat → ClientState × List Frame
  | 0 => (c, [])
  | k + 1 =>
    let p := tryToStartStreams c oracle
    let q := iterateTryToStart p.1 oracle k
    (q.1, p.2 ++ q.2)

/-- One client-level operation of the multiplexer, covering every way the
spec lets the client state evolve (spec §4.1, §4.2). -/
inductive ClientOp
  | connectOp
  | disconnectOp
  | onCloseOp
  | setAuto (b : Bool)
  | fireTimer
  | subscribeOp (n : StreamName) (oracle : StatusCode)
  | tryStart (oracle : StatusCode)
  | dispatch (n : StreamName) (m : String)

/-- Apply one operation to the client state (outputs discarded). -/
def applyOp (c : ClientState) : ClientOp → ClientState
  | .connectOp => (connect c).1
  | .disconnectOp => (disconnect c).1
  | .onCloseOp => onClose c
  | .setAuto b => setAutoReconnect c b
  | .fireTimer => (fireReconnectTimer c).1
  | .subscribeOp n oracle => (subscribe c n oracle).1
  | .tryStart oracle => (tryToStartStreams c oracle).1
  | .dispatch n m => dispatchMessage c n m

/-- Run a sequence of operations from a client state. -/
def run (c : ClientState) : List ClientOp → ClientState
  | [] => c
  | op :: ops => run (applyOp c op) ops

/-- Well-formedness of the registered streams: every stream's
`startStatuses` draws only on the `StreamStatus` values `1 | 2 | 3 | 4`
(the type of `startStatuses`, index.d.ts lines 762 and 859). -/
def StreamsWF (c : ClientState) : Prop :=
  ∀ s ∈ c.streams, ∀ x ∈ s.startStatuses, x ∈ streamStatusValues

/-- The ESC character that introduces every ANSI escape sequence. -/
def escChar : Char := '\x1b'

/-- A CSI final byte (range 0x40–0x7E) terminates a CSI sequence. -/
def isCsiFinalByte (ch : Char) : Bool :=
  0x40 ≤ ch.toNat && ch.toNat ≤ 0x7E

/-- Drop the body of a CSI sequence: everything up to and including the
final byte. -/
def dropCsi : List Char → List Char
  | [] => []
  | ch :: rest => if isCsiFinalByte ch then rest else dropCsi rest

/-- Drop one ANSI escape sequence body (the characters after the ESC):
a `[` opens a CSI sequence running to its final byte; otherwise only the
ESC itself is consumed. -/
def dropEscapeSeq : List Char → List Char
  | '[' :: rest => dropCsi rest
  | rest => rest

theorem dropCsi_length_le (l : List Char) : (dropCsi l).length ≤ l.length := by
  induction l with
  | nil => simp [dropCsi]
  | cons ch rest ih =>
    simp only [dropCsi]
    split
    · simp
    · exact Nat.le_succ_of_le ih

theorem dropEscapeSeq_length_le (l : List Char) : (dropEscapeSeq l).length ≤ l.length := by
  match l with
  | [] => simp [dropEscapeSeq]
  | ch :: rest =>
    by_cases h : ch = '['
    · subst h
      simpa [dropEscapeSeq] using Nat.le_succ_of_le (dropCsi_length_le rest)
    · have : dropEscapeSeq (ch :: rest) = ch :: rest := by
        unfold dropEscapeSeq
        split
        · rename_i heq
          cases heq
          exact absurd rfl h
        · rfl
      simp [this]

/-- Modelled from the spec: the ANSI stripper applied by the console
variant — "strips ANSI escape sequences from line payloads" (spec §4.2).
Every escape sequence starts with ESC; a CSI sequence `ESC [ … final`
is removed whole, a bare ESC introducer is removed alone, and every
character outside an escape sequence is kept. -/
def stripAnsi : List Char → List Char
  | [] => []
  | ch :: rest =>
    if ch = escChar then stripAnsi (dropEscapeSeq rest)
    else ch :: stripAnsi rest
termination_by l => l.length
decreasing_by
  · exact Nat.lt_succ_of_le (dropEscapeSeq_length_le rest)
  · exact Nat.lt_succ_self rest.length

/-- Modelled from the spec: `ConsoleStream.parseLine` (index.d.ts line
947) — the console variant "strips ANSI escape sequences from line
payloads" before emission (spec §4.2). -/
def parseLine (line : String) : String :=
  String.mk (stripAnsi line.toList)

/-! ### Helper lemmas -/

/-- `tryToStart` never mutates the stream: in particular it never flips
`started` optimistically. -/
theorem tryToStart_fst (s : StreamState) (o : StatusCode) (r : Bool) :
    (s.tryToStart o r).1 = s := by
  unfold StreamState.tryToStart
  split
  · rfl
  · split <;> rfl

/-- `tryToStartStreams` leaves the client state unchanged. -/
theorem tryToStartStreams_fst (c : ClientState) (o : StatusCode) :
    (tryToStartStreams c o).1 = c := by
  show { c with streams := c.streams.map _ } = c
  have hmap : c.streams.map (fun s => (s.tryToStart o c.ready).1) = c.streams :=
    (List.map_congr_left (fun s _ => tryToStart_fst s o c.ready)).trans
      (List.map_id c.streams)
  rw [hmap]

/-- Every frame `tryToStart` puts on the wire is a start frame carrying
the stream's own name. -/
theorem mem_tryToStart_frames {s : StreamState} {o : StatusCode} {r : Bool} {fr : Frame}
    (h : fr ∈ (s.tryToStart o r).2) : fr = ⟨s.name, "start"⟩ := by
  by_cases h1 : s.started
  · simp [StreamState.tryToStart, h1] at h
  · by_cases h2 : s.shouldBeStarted o
    · by_cases h3 : r <;> simp_all [StreamState.tryToStart]
    · simp [StreamState.tryToStart, h1, h2] at h

/-- A stream whose `startStatuses` excludes the current status emits
nothing. -/
theorem tryToStart_snd_of_not_mem (s : StreamState) (o : StatusCode) (r : Bool)
    (h : (getServerStatus o).val ∉ s.startStatuses) :
    (s.tryToStart o r).2 = [] := by
  have hsb : s.shouldBeStarted o = false := by
    simp [StreamState.shouldBeStarted, h]
  by_cases h1 : s.started <;> simp [StreamState.tryToStart, h1, hsb]

/-- A not-yet-started admissible stream on a ready socket emits exactly
its start frame. -/
theorem tryToStart_snd_emit (s : StreamState) (o : StatusCode)
    (hst : s.started = false) (hsb : s.shouldBeStarted o = true) :
    (s.tryToStart o true).2 = [⟨s.name, "start"⟩] := by
  simp [StreamState.tryToStart, hst, hsb]

/-- Frames produced by streams none of which is named `n` never mention
`n`. -/
theorem flatten_frames_filter_nil (l : List StreamState) (o : StatusCode) (r : Bool)
    (n : StreamName) (h : ∀ s ∈ l, s.name ≠ n) :
    ((l.map (fun s => (s.tryToStart o r).2)).flatten).filter
      (fun fr => fr.stream = n && fr.type = "start") = [] := by
  rw [List.filter_eq_nil_iff]
  intro fr hfr
  rcases List.mem_flatten.1 hfr with ⟨fl, hfl, hmem⟩
  rcases List.mem_map.1 hfl with ⟨s, hs, rfl⟩
  have := mem_tryToStart_frames hmem
  subst this
  simp [h s hs]

/-- The stream instance `subscribe` leaves registered for a fresh name:
not started, wanted, with the variant's `startStatuses`. -/
def subscribedStream (n : StreamName) : StreamState :=
  ⟨n, false, true, defaultStartStatuses n⟩

/-- On a fresh name, the bookkeeping half of `subscribe` (ensure the
instance exists, mark it wanted) appends exactly the subscribed
instance. -/
theorem subscribe_setup (c : ClientState) (n : StreamName)
    (h : ∀ s ∈ c.streams, s.name ≠ n) :
    markShouldStart (ensureStream c n) n =
      { c with streams := c.streams ++ [subscribedStream n] } := by
  have hany : c.streams.any (fun s => s.name = n) = false := by
    simp only [List.any_eq_false, decide_eq_true_eq]
    exact h
  unfold ensureStream
  rw [hany]
  simp only [Bool.false_eq_true, if_false]
  unfold markShouldStart
  simp only [List.map_append]
  have hid : c.streams.map
      (fun s => if s.name = n then { s with shouldStart := true } else s) = c.streams :=
    (List.map_congr_left (fun s hs => by simp [h s hs])).trans (List.map_id c.streams)
  rw [hid]
  have hmk : (if (mkStream n).name = n then { mkStream n with shouldStart := true }
      else mkStream n) = subscribedStream n := by
    simp [mkStream, subscribedStream]
  rw [List.map_cons, List.map_nil, hmk]

/-- Lifecycle dispatch never touches `startStatuses`. -/
theorem onMessage_startStatuses (s : StreamState) (m : String) :
    (s.onMessage m).startStatuses = s.startStatuses := by
  unfold StreamState.onMessage
  split
  · rfl
  · split <;> rfl

/-- Lifecycle dispatch never renames a stream. -/
theorem onMessage_name (s : StreamState) (m : String) :
    (s.onMessage m).name = s.name := by
  unfold StreamState.onMessage
  split
  · rfl
  · split <;> rfl

/-- Forcing a stream down twice is the same as once. -/
theorem onDisconnect_involutive :
    StreamState.onDisconnect ∘ StreamState.onDisconnect = StreamState.onDisconnect := by
  funext s
  cases s
  rfl

/-- Every variant's `startStatuses` draws on the `StreamStatus` values. -/
theorem defaultStartStatuses_subset (n : StreamName) :
    ∀ x ∈ defaultStartStatuses n, x ∈ streamStatusValues := by
  intro x hx
  cases n <;> simp_all [defaultStartStatuses, streamStatusValues]

/-- Mapping a `startStatuses`-preserving function over the registered
streams preserves well-formedness. -/
theorem streamsWF_map (c : ClientState) (f : StreamState → StreamState)
    (hf : ∀ s, (f s).startStatuses = s.startStatuses) (h : StreamsWF c) :
    StreamsWF { c with streams := c.streams.map f } := by
  intro s hs x hx
  rcases List.mem_map.1 hs with ⟨t, ht, rfl⟩
  exact h t ht x (by rwa [hf t] at hx)

/-- No client operation ever installs a `startStatuses` value outside
`StreamStatus`. -/
theorem streamsWF_applyOp (c : ClientState) (op : ClientOp) (h : StreamsWF c) :
    StreamsWF (applyOp c op) := by
  cases op with
  | connectOp =>
    show StreamsWF (connect c).1
    unfold connect
    split
    · exact h
    · exact h
  | disconnectOp =>
    exact streamsWF_map c StreamState.onDisconnect (fun s => rfl) h
  | onCloseOp =>
    show StreamsWF (onClose c)
    unfold onClose
    split
    · exact streamsWF_map c StreamState.onDisconnect (fun s => rfl) h
    · exact streamsWF_map c StreamState.onDisconnect (fun s => rfl) h
  | setAuto b =>
    exact h
  | fireTimer =>
    show StreamsWF (fireReconnectTimer c).1
    unfold fireReconnectTimer
    split
    · exact h
    · split
      · show StreamsWF (connect _).1
        unfold connect
        split
        · exact h
        · exact h
      · exact h
  | subscribeOp n oracle =>
    show StreamsWF (subscribe c n oracle).1
    rw [show (subscribe c n oracle).1 =
        (markShouldStart (ensureStream c n) n) from tryToStartStreams_fst _ _]
    have hens : StreamsWF (ensureStream c n) := by
      unfold ensureStream
      split
      · exact h
      · intro s hs x hx
        rcases List.mem_append.1 hs with hs | hs
        · exact h s hs x hx
        · rcases List.mem_singleton.1 hs with rfl
          exact defaultStartStatuses_subset n x hx
    exact streamsWF_map (ensureStream c n) _
      (fun s => by by_cases hn : s.name = n <;> simp [hn]) hens
  | tryStart oracle =>
    rw [show applyOp c (.tryStart oracle) = c from tryToStartStreams_fst c oracle]
    exact h
  | dispatch n m =>
    refine streamsWF_map c _ (fun s => ?_) h
    by_cases hn : s.name = n <;> simp [hn, onMessage_startStatuses]

/-- Well-formedness of the registered streams is an invariant of every
reachable state. -/
theorem streamsWF_run (c : ClientState) (ops : List ClientOp) (h : StreamsWF c) :
    StreamsWF (run c ops) := by
  induction ops generalizing c with
  | nil => exact h
  | cons op ops ih => exact ih (applyOp c op) (streamsWF_applyOp c op h)

/-- A well-formed stream is never admissible under a status outside
`StreamStatus`. -/
theorem shouldBeStarted_false_of_forbidden (s : StreamState) (o : StatusCode)
    (hwf : ∀ x ∈ s.startStatuses, x ∈ streamStatusValues)
    (ho : (getServerStatus o).val ∉ streamStatusValues) :
    s.shouldBeStarted o = false := by
  have : (getServerStatus o).val ∉ s.startStatuses := fun hmem => ho (hwf _ hmem)
  simp [StreamState.shouldBeStarted, this]

/-- `stripAnsi` is the identity on input free of the ESC introducer. -/
theorem stripAnsi_of_no_esc : ∀ l : List Char, escChar ∉ l → stripAnsi l = l := by
  intro l
  induction l with
  | nil => intro _; rw [stripAnsi]
  | cons ch rest ih =>
    intro h
    have hch : ch ≠ escChar := fun hc => h (hc ▸ List.mem_cons_self ch rest)
    have hrest : escChar ∉ rest := fun hc => h (List.mem_cons_of_mem ch hc)
    rw [stripAnsi, if_neg hch, ih hrest]

/-- A concrete ready client owning one tick stream, used to instantiate
theorems with hypotheses. -/
def sampleClient : ClientState :=
  { autoReconnect := true
  , reconnectTimeout := 3000
  , connected := true
  , shouldConnect := true
  , serverConnected := true
  , ready := true
  , reconnectTimer := none
  , socketOpen := true
  , streams := [mkStream .tick] }

/-- A concrete ready client with no stream registered yet. -/
def baseClient : ClientState :=
  { sampleClient with streams := [] }

/-! ### Claims -/

/-- C2: for every stream, `shouldBeStarted()` resolves true if and only
if the server status obtained from the external status oracle at call
time is a member of that stream's `startStatuses` AND the stream's
`shouldStart` flag is true; no other condition admits a start. -/
theorem C2_shouldBeStarted_iff (s : StreamState) (oracle : StatusCode) :
    s.shouldBeStarted oracle = true ↔
      (getServerStatus oracle).val ∈ s.startStatuses ∧ s.shouldStart = true := by
  simp [StreamState.shouldBeStarted]

/-- C8: `getServerStatus()` yields exactly one `StatusCode` drawn from
the 10-member server-status enumeration with the explicit non-contiguous
values OFFLINE=0, ONLINE=1, STARTING=2, STOPPING=3, RESTARTING=4,
SAVING=5, LOADING=6, CRASHED=7, PENDING=8, PREPARING=10; no status has
the value 9 and no value outside this set occurs. -/
theorem C8_server_status_enumeration :
    allStatusCodes.map StatusCode.val = [0, 1, 2, 3, 4, 5, 6, 7, 8, 10] ∧
    allStatusCodes.length = 10 ∧
    (∀ s : StatusCode, s ∈ allStatusCodes) ∧
    (∀ s : StatusCode, s.val ≠ 9) ∧
    (∀ oracle : StatusCode, getServerStatus oracle ∈ allStatusCodes ∧
      (getServerStatus oracle).val ∈ [0, 1, 2, 3, 4, 5, 6, 7, 8, 10]) := by
  refine ⟨rfl, rfl, ?_, ?_, ?_⟩
  · intro s; cases s <;> decide
  · intro s; cases s <;> decide
  · intro oracle; cases oracle <;> exact ⟨by decide, by decide⟩

/-- C9: every stream's `startStatuses` is confined to the `StreamStatus`
subset `{1, 2, 3, 4}` of server-status values, so no sequence of client
operations can ever make a stream admissible under OFFLINE=0, SAVING=5,
LOADING=6, CRASHED=7, PENDING=8 or PREPARING=10; moreover `TickStream`,
`StatsStream` and `HeapStream` fix `startStatuses` to exactly `[1]`. -/
theorem C9_startStatuses_confined :
    (∀ n : StreamName, ∀ x ∈ defaultStartStatuses n, x ∈ streamStatusValues) ∧
    defaultStartStatuses .tick = [1] ∧
    defaultStartStatuses .stats = [1] ∧
    defaultStartStatuses .heap = [1] ∧
    (∀ (c : ClientState) (ops : List ClientOp) (oracle : StatusCode),
      StreamsWF c → (getServerStatus oracle).val ∉ streamStatusValues →
      ∀ s ∈ (run c ops).streams, s.shouldBeStarted oracle = false) := by
  refine ⟨defaultStartStatuses_subset, rfl, rfl, rfl, ?_⟩
  intro c ops oracle hwf ho s hs
  exact shouldBeStarted_false_of_forbidden s oracle (streamsWF_run c ops hwf s hs) ho

/-- Witness for C9 at a concrete client, operation sequence and the
forbidden status OFFLINE. -/
theorem C9_startStatuses_confined_witness :
    (run sampleClient [.onCloseOp, .subscribeOp .tick .OFFLINE]).streams.all
      (fun s => s.shouldBeStarted .OFFLINE = false) = true := by
  rw [List.all_eq_true]
  intro s hs
  have h := C9_startStatuses_confined.2.2.2.2 sampleClient
    [.onCloseOp, .subscribeOp .tick .OFFLINE] .OFFLINE
    (by unfold StreamsWF; decide) (by decide) s hs
  simp [h]

/-- C10: for every string argument, `getStreams(name)` returns either a
`Stream` instance or a plain boolean: an unknown name yields the falsy
boolean rather than an exception (the function is total), and
`hasStream(name)` always returns a boolean. -/
theorem C10_getStreams_no_throw (c : ClientState) (name : String) :
    (hasStream name = true ∨ hasStream name = false) ∧
    (hasStream name = false → getStreams c name = Sum.inr false) ∧
    (hasStream name = true → ∃ s, getStreams c name = Sum.inl s) := by
  refine ⟨?_, ?_, ?_⟩
  · cases hasStream name
    · exact Or.inr rfl
    · exact Or.inl rfl
  · intro h
    cases hopt : streamNameOfString name with
    | none => simp [getStreams, hopt]
    | some n => simp [hasStream, hopt] at h
  · intro h
    cases hopt : streamNameOfString name with
    | none => simp [hasStream, hopt] at h
    | some n =>
      cases hfind : ClientState.streams c |>.find? (fun s => s.name = n) with
      | none => exact ⟨mkStream n, by simp [getStreams, hopt, hfind]⟩
      | some s => exact ⟨s, by simp [getStreams, hopt, hfind]⟩

/-- Witness for C10 at an unknown and a known stream name. -/
theorem C10_getStreams_no_throw_witness :
    getStreams sampleClient "nonsense" = Sum.inr false ∧
    ∃ s, getStreams sampleClient "tick" = Sum.inl s :=
  ⟨(C10_getStreams_no_throw sampleClient "nonsense").2.1 (by decide),
   (C10_getStreams_no_throw sampleClient "tick").2.2 (by decide)⟩

/-- C7: the console stream's line parsing emits the input with all ANSI
escape sequences removed; in particular, on every input containing no
ANSI escape sequence (no ESC introducer) it is the identity. -/
theorem C7_parseLine_identity_on_clean (line : String) :
    parseLine line = String.mk (stripAnsi line.toList) ∧
    (escChar ∉ line.toList → parseLine line = line) := by
  refine ⟨rfl, fun h => ?_⟩
  have hid := stripAnsi_of_no_esc line.toList h
  cases line with
  | mk data => exact congrArg String.mk hid

/-- Witness for C7 on a concrete escape-free console line. -/
theorem C7_parseLine_identity_on_clean_witness :
    escChar ∉ "[12:00:01] [Server thread] Done".toList ∧
    parseLine "[12:00:01] [Server thread] Done" = "[12:00:01] [Server thread] Done" :=
  ⟨by decide,
   (C7_parseLine_identity_on_clean "[12:00:01] [Server thread] Done").2 (by decide)⟩

/-- C4: after `disconnect()` returns, every registered stream reports
`started=false`, `shouldConnect=false`, no reconnect timer is pending and
the socket is closed; calling `disconnect()` again from that state
changes nothing. -/
theorem C4_disconnect_postconditions (c : ClientState) :
    (∀ s ∈ (disconnect c).1.streams, s.started = false) ∧
    (disconnect c).1.shouldConnect = false ∧
    (disconnect c).1.reconnectTimer = none ∧
    (disconnect c).1.socketOpen = false ∧
    (disconnect c).1.connected = false ∧
    disconnect (disconnect c).1 = ((disconnect c).1, []) := by
  refine ⟨?_, rfl, rfl, rfl, rfl, ?_⟩
  · intro s hs
    rcases List.mem_map.1 hs with ⟨t, _, rfl⟩
    rfl
  · simp [disconnect, List.map_map, onDisconnect_involutive]

/-- C6: `connect()` is idempotent — calling it while the client is
already connected or connecting opens no second socket and changes no
state beyond `shouldConnect=true`, so two consecutive calls from a
connected state are equivalent to one. -/
theorem C6_connect_idempotent (c : ClientState)
    (h : c.connected = true ∨ c.socketOpen = true) :
    (connect c).2 = false ∧
    (connect c).1 = { c with shouldConnect := true } ∧
    connect (connect c).1 = ((connect c).1, false) := by
  have hcond : (c.socketOpen || c.connected) = true := by
    rcases h with h | h <;> simp [h]
  refine ⟨?_, ?_, ?_⟩ <;> simp [connect, hcond]

/-- Witness for C6 at a concrete connected client. -/
theorem C6_connect_idempotent_witness :
    (connect sampleClient).2 = false ∧
    (connect sampleClient).1 = { sampleClient with shouldConnect := true } ∧
    connect (connect sampleClient).1 = ((connect sampleClient).1, false) :=
  C6_connect_idempotent sampleClient (Or.inl rfl)

/-- C5: with `autoReconnect=true` and `shouldConnect=true`, an unexpected
socket close schedules exactly one reconnect attempt to fire after
`reconnectTimeout` milliseconds, and clearing `autoReconnect` before the
timer fires cancels the scheduled attempt so no reconnect occurs. -/
theorem C5_reconnect_schedule_and_cancel (c : ClientState)
    (hauto : c.autoReconnect = true) (hsc : c.shouldConnect = true) :
    (onClose c).reconnectTimer = some c.reconnectTimeout ∧
    (setAutoReconnect (onClose c) false).reconnectTimer = none ∧
    fireReconnectTimer (setAutoReconnect (onClose c) false) =
      (setAutoReconnect (onClose c) false, false) := by
  have hcond : (c.autoReconnect && c.shouldConnect) = true := by
    simp [hauto, hsc]
  refine ⟨by simp [onClose, hcond], rfl, rfl⟩

/-- Witness for C5 at a concrete auto-reconnecting client. -/
theorem C5_reconnect_schedule_and_cancel_witness :
    (onClose sampleClient).reconnectTimer = some 3000 ∧
    (setAutoReconnect (onClose sampleClient) false).reconnectTimer = none ∧
    fireReconnectTimer (setAutoReconnect (onClose sampleClient) false) =
      (setAutoReconnect (onClose sampleClient) false, false) :=
  C5_reconnect_schedule_and_cancel sampleClient rfl rfl

/-- One invocation of `tryToStartStreams` emits no frame naming a stream
whose `startStatuses` excludes the current status. -/
theorem tryToStartStreams_no_forbidden (c : ClientState) (oracle : StatusCode)
    (n : StreamName)
    (h : ∀ s ∈ c.streams, s.name = n → (getServerStatus oracle).val ∉ s.startStatuses) :
    ∀ fr ∈ (tryToStartStreams c oracle).2, fr.stream ≠ n := by
  intro fr hfr
  rcases List.mem_flatten.1 hfr with ⟨fl, hfl, hmem⟩
  rcases List.mem_map.1 hfl with ⟨s, hs, rfl⟩
  have heq := mem_tryToStart_frames hmem
  subst heq
  intro hn
  have hforb := h s hs hn
  rw [tryToStart_snd_of_not_mem s oracle c.ready hforb] at hmem
  exact List.not_mem_nil _ hmem

/-- C3: for every stream and every number of invocations of
`tryToStartStreams()`, if the current server status is not a member of
the stream's `startStatuses` then no start frame is ever emitted for that
stream. -/
theorem C3_never_start_when_forbidden (c : ClientState) (oracle : StatusCode)
    (n : StreamName) (k : Nat)
    (h : ∀ s ∈ c.streams, s.name = n → (getServerStatus oracle).val ∉ s.startStatuses) :
    ∀ fr ∈ (iterateTryToStart c oracle k).2, ¬(fr.stream = n ∧ fr.type = "start") := by
  induction k with
  | zero =>
    intro fr hfr
    exact absurd hfr (List.not_mem_nil fr)
  | succ k ih =>
    intro fr hfr
    rw [show iterateTryToStart c oracle (k + 1) =
        ((iterateTryToStart (tryToStartStreams c oracle).1 oracle k).1,
         (tryToStartStreams c oracle).2 ++
           (iterateTryToStart (tryToStartStreams c oracle).1 oracle k).2) from rfl] at hfr
    rw [tryToStartStreams_fst c oracle] at hfr
    rcases List.mem_append.1 hfr with hfr | hfr
    · exact fun hp => tryToStartStreams_no_forbidden c oracle n h fr hfr hp.1
    · exact ih fr hfr

/-- Witness for C3: three rounds against a tick stream while the server
is OFFLINE put nothing on the wire for it. -/
theorem C3_never_start_when_forbidden_witness :
    (iterateTryToStart sampleClient .OFFLINE 3).2.filter
      (fun fr => fr.stream = .tick && fr.type = "start") = [] := by
  rw [List.filter_eq_nil_iff]
  intro fr hfr
  have h := C3_never_start_when_forbidden sampleClient .OFFLINE .tick 3 (by decide) fr hfr
  simpa using h

/-- On a client whose registered streams avoid the name `n`, the frames
a `tryToStartStreams` round addresses to `n` are exactly those of one
appended stream named `n`. -/
theorem tryToStartStreams_snd_append_filter (c : ClientState) (n : StreamName)
    (t : StreamState) (o : StatusCode)
    (hfresh : ∀ s ∈ c.streams, s.name ≠ n) :
    ((tryToStartStreams { c with streams := c.streams ++ [t] } o).2).filter
        (fun fr => fr.stream = n && fr.type = "start") =
      (t.tryToStart o c.ready).2.filter (fun fr => fr.stream = n && fr.type = "start") := by
  show (((c.streams ++ [t]).map (fun s => (s.tryToStart o c.ready).2)).flatten).filter _ = _
  rw [List.map_append, List.flatten_append, List.filter_append,
      flatten_frames_filter_nil c.streams o c.ready n hfresh]
  simp

/-- C1: for every stream name, `subscribe(name)` followed by a
server-status transition into that stream's `startStatuses` causes
exactly one outbound start frame for that stream, and the stream's
`started` flag is still false after both steps — it becomes true only
once an inbound `"started"` lifecycle message is dispatched through the
stream's message handler, never before the confirmation arrives. -/
theorem C1_subscribe_single_start_frame (c : ClientState) (n : StreamName)
    (s0 s1 : StatusCode)
    (hready : c.ready = true)
    (hfresh : ∀ s ∈ c.streams, s.name ≠ n)
    (h0 : (getServerStatus s0).val ∉ defaultStartStatuses n)
    (h1 : (getServerStatus s1).val ∈ defaultStartStatuses n) :
    (((subscribe c n s0).2 ++ (tryToStartStreams (subscribe c n s0).1 s1).2).filter
        (fun fr => fr.stream = n && fr.type = "start")).length = 1 ∧
    (∀ s ∈ (tryToStartStreams (subscribe c n s0).1 s1).1.streams,
      s.name = n → s.started = false) ∧
    (∀ s ∈ (dispatchMessage (tryToStartStreams (subscribe c n s0).1 s1).1 n
        "started").streams, s.name = n → s.started = true) := by
  have hsetup := subscribe_setup c n hfresh
  have hsub1 : (subscribe c n s0).1 =
      { c with streams := c.streams ++ [subscribedStream n] } := by
    unfold subscribe
    rw [hsetup, tryToStartStreams_fst]
  have hsub2 : (subscribe c n s0).2 =
      (tryToStartStreams { c with streams := c.streams ++ [subscribedStream n] } s0).2 := by
    unfold subscribe
    rw [hsetup]
  have hsb1 : (subscribedStream n).shouldBeStarted s1 = true := by
    simp [subscribedStream, StreamState.shouldBeStarted, h1]
  refine ⟨?_, ?_, ?_⟩
  · rw [List.filter_append, hsub2, hsub1,
        tryToStartStreams_snd_append_filter c n _ s0 hfresh,
        tryToStartStreams_snd_append_filter c n _ s1 hfresh,
        tryToStart_snd_of_not_mem (subscribedStream n) s0 c.ready h0, hready,
        tryToStart_snd_emit (subscribedStream n) s1 rfl hsb1]
    simp [subscribedStream]
  · rw [tryToStartStreams_fst, hsub1]
    intro s hs
    rcases List.mem_append.1 hs with hs | hs
    · exact fun hn => absurd hn (hfresh s hs)
    · rcases List.mem_singleton.1 hs with rfl
      exact fun _ => rfl
  · rw [tryToStartStreams_fst, hsub1]
    intro s hs
    rcases List.mem_map.1 hs with ⟨t, ht, rfl⟩
    rcases List.mem_append.1 ht with ht | ht
    · rw [if_neg (hfresh t ht)]
      exact fun hn => absurd hn (hfresh t ht)
    · rcases List.mem_singleton.1 ht with rfl
      intro _
      simp [subscribedStream, StreamState.onMessage]

/-- Witness for C1: subscribing the tick stream while the server is
OFFLINE, then a transition to ONLINE, on a concrete ready client. -/
theorem C1_subscribe_single_start_frame_witness :
    (((subscribe baseClient .tick .OFFLINE).2 ++
        (tryToStartStreams (subscribe baseClient .tick .OFFLINE).1 .ONLINE).2).filter
      (fun fr => fr.stream = .tick && fr.type = "start")).length = 1 ∧
    (∀ s ∈ (tryToStartStreams (subscribe baseClient .tick .OFFLINE).1 .ONLINE).1.streams,
      s.name = .tick → s.started = false) ∧
    (∀ s ∈ (dispatchMessage
        (tryToStartStreams (subscribe baseClient .tick .OFFLINE).1 .ONLINE).1 .tick
        "started").streams, s.name = .tick → s.started = true) :=
  C1_subscribe_single_start_frame baseClient .tick .OFFLINE .ONLINE rfl
    (by decide) (by decide) (by decide)

end Exaroton
